import Mathlib

/-!
# Verification of the x402 "deferred" payment scheme (`x402/deferred.py`)

A shallow embedding of the deferred-voucher core: voucher creation,
validated aggregation, EIP-712 typed-data construction, signature
verification, payment-header preparation/signing, and the base64+JSON
payload codec.  External collaborators (address checksumming from
`eth_utils`, the network→chain-id lookup from `x402.chains`, and the
asymmetric signing primitive from `eth_account`) are passed in as
function parameters, mirroring the spec's treatment of them as trusted
black boxes.  Wall-clock reads of `time.time()` become explicit `Nat`
parameters, one per read in the source.
-/

namespace X402

/-- The voucher record (`DeferredEvmPayloadVoucher` from `x402.types`,
field set as used throughout `deferred.py` and the wire format). -/
structure DeferredEvmPayloadVoucher where
  id : String
  buyer : String
  seller : String
  value_aggregate : String
  asset : String
  timestamp : Nat
  nonce : Nat
  escrow : String
  chain_id : Nat
  expiry : Nat
deriving Repr, DecidableEq

/-- The `extra["voucher"]` dictionary: either a new-voucher seed
(only `id`/`escrow` present) or a full prior voucher dump.  Every key
is optional, as in a Python dict. -/
structure VoucherDict where
  id : Option String := none
  buyer : Option String := none
  seller : Option String := none
  value_aggregate : Option String := none
  asset : Option String := none
  timestamp : Option Nat := none
  nonce : Option Nat := none
  escrow : Option String := none
  chain_id : Option Nat := none
  expiry : Option Nat := none
deriving Repr, DecidableEq

/-- The scheme-specific `payment_requirements.extra` dictionary. -/
structure ExtraDict where
  type : Option String := none
  voucher : Option VoucherDict := none
  signature : Option String := none
deriving Repr, DecidableEq

/-- Embedding of `PaymentRequirements` (the fields `deferred.py` reads);
`extra = none`
models a missing/falsy `extra`. -/
structure PaymentRequirements where
  scheme : String
  network : String
  max_amount_required : String
  pay_to : String
  asset : String
  extra : Option ExtraDict
deriving Repr, DecidableEq

/-- The payment header's `payload` dictionary. -/
structure PaymentPayload where
  signature : Option String
  voucher : DeferredEvmPayloadVoucher
deriving Repr, DecidableEq

/-- The wire-level `PaymentHeader` envelope. -/
structure PaymentHeader where
  x402Version : Nat
  scheme : String
  network : String
  payload : PaymentPayload
deriving Repr, DecidableEq

/-- Error taxonomy.  Each constructor corresponds to one `raise` site in
`deferred.py` (the Python code raises `ValueError` with a distinguishing
message); names follow the spec's error taxonomy (§7). -/
inductive DeferredError where
  /-- "Payment requirements extra must contain 'type' field" and
  "Unknown voucher type: ..." -/
  | malformedRequirements
  /-- "Invalid extra data for new voucher: ..." -/
  | invalidVoucherSeed
  /-- "Invalid extra data for voucher aggregation: ..." -/
  | invalidAggregationExtra
  /-- "Invalid voucher seller" -/
  | invalidSeller
  /-- "Invalid voucher asset" -/
  | invalidAsset
  /-- "Invalid voucher chainId" -/
  | invalidChainId
  /-- "Voucher expired" -/
  | voucherExpired
  /-- "Voucher timestamp is in the future" -/
  | voucherTimestampInFuture
  /-- "Invalid voucher signature" -/
  | invalidVoucherSignature
  /-- `get_chain_id` failure for an unrecognized network (external lookup) -/
  | unknownNetwork
  /-- `int()` failure on a non-numeric decimal string -/
  | invalidAmount
  /-- "Failed to sign payment header: ..." -/
  | signingFailure
deriving Repr, DecidableEq

deriving instance DecidableEq for Except

/-- Constant `EXPIRY_TIME = 60 * 60 * 24 * 30` (30 days in seconds). -/
def EXPIRY_TIME : Nat := 60 * 60 * 24 * 30

/-- Constant `DEFERRED_SCHEME = "deferred"`. -/
def DEFERRED_SCHEME : String := "deferred"

/-- Value of a decimal digit character. -/
def digitVal (c : Char) : Nat := c.toNat - '0'.toNat

/-- Parse a non-empty all-digit character list as a natural number. -/
def decDigits? (cs : List Char) : Option Nat :=
  if cs = [] then none
  else if cs.all Char.isDigit then
    some (cs.foldl (fun n c => n * 10 + digitVal c) 0)
  else none

/-- Model of Python `int(s)` on canonical decimal strings (optionally
`-`-signed digit strings); other Python niceties (whitespace,
underscores, `+` sign) are outside the strings this code handles. -/
def str_to_int (s : String) : Option Int :=
  match s.data with
  | '-' :: rest => (decDigits? rest).map (fun n => -(n : Int))
  | cs => (decDigits? cs).map (fun n => (n : Int))

/-- Model of Python `str(i)` on integers (decimal encoding). -/
def int_to_str (i : Int) : String := toString i

/-- Python's `str.lower()` on ASCII strings (character-wise
lower-casing). -/
def lowerStr (s : String) : String := String.mk (s.data.map Char.toLower)

/-- Case-insensitive address comparison, as Python's `.lower()`. -/
def lowerEq (a b : String) : Bool := lowerStr a == lowerStr b

/-- The EIP-712 typed-data message built by `get_voucher_typed_data`,
flattened: type tables, primary type, domain fields and message fields
of the Python dict. -/
structure TypedData where
  eip712DomainType : List (String × String)
  voucherType : List (String × String)
  primaryType : String
  domain_name : String
  domain_version : String
  domain_chainId : Nat
  domain_verifyingContract : String
  msg_id : String
  msg_buyer : String
  msg_seller : String
  msg_valueAggregate : Int
  msg_asset : String
  msg_timestamp : Nat
  msg_nonce : Nat
  msg_escrow : String
  msg_chainId : Nat
  msg_expiry : Nat
deriving Repr, DecidableEq

/-- Embedding of `get_voucher_typed_data(voucher)`: the EIP-712 typed data for a
voucher.  `checksum` is `eth_utils.to_checksum_address`.  Returns `none`
when `int(voucher.value_aggregate)` fails (Python raises there). -/
def get_voucher_typed_data (checksum : String → String)
    (voucher : DeferredEvmPayloadVoucher) : Option TypedData :=
  match str_to_int voucher.value_aggregate with
  | none => none
  | some va =>
    some {
      eip712DomainType := [("name", "string"), ("version", "string"),
        ("chainId", "uint256"), ("verifyingContract", "address")]
      voucherType := [("id", "bytes32"), ("buyer", "address"),
        ("seller", "address"), ("valueAggregate", "uint256"),
        ("asset", "address"), ("timestamp", "uint64"),
        ("nonce", "uint256"), ("escrow", "address"),
        ("chainId", "uint256"), ("expiry", "uint64")]
      primaryType := "Voucher"
      domain_name := "DeferredPaymentEscrow"
      domain_version := "1"
      domain_chainId := voucher.chain_id
      domain_verifyingContract := checksum voucher.escrow
      msg_id := voucher.id
      msg_buyer := checksum voucher.buyer
      msg_seller := checksum voucher.seller
      msg_valueAggregate := va
      msg_asset := checksum voucher.asset
      msg_timestamp := voucher.timestamp
      msg_nonce := voucher.nonce
      msg_escrow := checksum voucher.escrow
      msg_chainId := voucher.chain_id
      msg_expiry := voucher.expiry }

/-- Embedding of `verify_voucher(voucher, signature, signer)`: recover the signer of
the voucher's typed message and compare case-insensitively.  `recover`
is `eth_account.Account.recover_message` composed with
`encode_typed_data` — total over well-formed signatures, so the
embedding returns `Bool` (the Python function never raises for a
mismatched but well-formed signature).  Returns `none` when the typed
data itself cannot be built (non-numeric `value_aggregate`). -/
def verify_voucher (checksum : String → String)
    (recover : TypedData → String → String)
    (voucher : DeferredEvmPayloadVoucher) (signature : String)
    (signer : String) : Option Bool :=
  (get_voucher_typed_data checksum voucher).map
    (fun td => lowerEq (recover td signature) signer)

/-- Modelled from the spec: validation performed by the pydantic model
`DeferredPaymentRequirementsExtraNewVoucher` (`x402.types`, not in the
sources at hand).  The spec (§4.2) requires `extra.voucher` to carry
`id` and `escrow`; failure is `InvalidVoucherSeed`. -/
def validate_new_extra (extra : ExtraDict) : Option (String × String) :=
  match extra.voucher with
  | none => none
  | some vd =>
    match vd.id, vd.escrow with
    | some i, some e => some (i, e)
    | _, _ => none

/-- Modelled from the spec: validation performed by the pydantic model
`DeferredPaymentRequirementsExtraAggregationVoucher` (`x402.types`, not
in the sources at hand).  The spec (§4.3) requires `extra` to carry a
`signature` and a full prior `voucher`. -/
def validate_aggregation_extra (extra : ExtraDict) :
    Option (String × DeferredEvmPayloadVoucher) :=
  match extra.signature, extra.voucher with
  | some sig, some vd =>
    match vd.id, vd.buyer, vd.seller, vd.value_aggregate, vd.asset,
        vd.timestamp, vd.nonce, vd.escrow, vd.chain_id, vd.expiry with
    | some i, some b, some s, some va, some a, some ts, some n, some e,
        some c, some ex =>
      some (sig, ⟨i, b, s, va, a, ts, n, e, c, ex⟩)
    | _, _, _, _, _, _, _, _, _, _ => none
  | _, _ => none

/-- Result of `model_dump(by_alias=True)` on a voucher: the dictionary with every
field present. -/
def voucherToDict (v : DeferredEvmPayloadVoucher) : VoucherDict :=
  { id := some v.id, buyer := some v.buyer, seller := some v.seller,
    value_aggregate := some v.value_aggregate, asset := some v.asset,
    timestamp := some v.timestamp, nonce := some v.nonce,
    escrow := some v.escrow, chain_id := some v.chain_id,
    expiry := some v.expiry }

/-- Embedding of `create_new_voucher(buyer, payment_requirements)`.  The source reads
the wall clock twice — once for `timestamp` (line 77) and once more for
`expiry` (line 81) — so the embedding takes two clock values `t1 ≤ t2`,
one per `int(time.time())` call in evaluation order.  `chain_id_of` is
`x402.chains.get_chain_id` (external lookup, `none` = unknown network). -/
def create_new_voucher (checksum : String → String)
    (chain_id_of : String → Option Nat) (t1 t2 : Nat) (buyer : String)
    (req : PaymentRequirements) :
    Except DeferredError DeferredEvmPayloadVoucher :=
  match req.extra with
  | none => .error .invalidVoucherSeed
  | some extra =>
    match validate_new_extra extra with
    | none => .error .invalidVoucherSeed
    | some (vid, vescrow) =>
      match chain_id_of req.network with
      | none => .error .unknownNetwork
      | some cid =>
        .ok {
          id := vid
          buyer := checksum buyer
          seller := checksum req.pay_to
          value_aggregate := req.max_amount_required
          asset := checksum req.asset
          timestamp := t1
          nonce := 0
          escrow := checksum vescrow
          chain_id := cid
          expiry := t2 + EXPIRY_TIME }

/-- Embedding of `aggregate_voucher(buyer, payment_requirements)`: validate the prior
voucher in `extra` against the requirements (seller, asset, chain id,
expiry, timestamp, signature — in that order) and merge in the new
charge.  `now` is the single `int(time.time())` read (line 96). -/
def aggregate_voucher (checksum : String → String)
    (chain_id_of : String → Option Nat)
    (recover : TypedData → String → String) (now : Nat) (buyer : String)
    (req : PaymentRequirements) :
    Except DeferredError DeferredEvmPayloadVoucher :=
  match req.extra with
  | none => .error .invalidAggregationExtra
  | some extra =>
    match validate_aggregation_extra extra with
    | none => .error .invalidAggregationExtra
    | some (sig, voucher) =>
      if ¬ lowerEq req.pay_to voucher.seller then
        .error .invalidSeller
      else if ¬ lowerEq req.asset voucher.asset then
        .error .invalidAsset
      else
        match chain_id_of req.network with
        | none => .error .unknownNetwork
        | some cid =>
          if cid ≠ voucher.chain_id then
            .error .invalidChainId
          else if now > voucher.expiry then
            .error .voucherExpired
          else if now < voucher.timestamp then
            .error .voucherTimestampInFuture
          else
            match verify_voucher checksum recover voucher sig buyer with
            | none => .error .invalidAmount
            | some false => .error .invalidVoucherSignature
            | some true =>
              match str_to_int req.max_amount_required,
                  str_to_int voucher.value_aggregate with
              | some m, some va =>
                .ok {
                  id := voucher.id
                  buyer := checksum buyer
                  seller := voucher.seller
                  value_aggregate := int_to_str (m + va)
                  asset := voucher.asset
                  timestamp := now
                  nonce := voucher.nonce + 1
                  escrow := voucher.escrow
                  chain_id := voucher.chain_id
                  expiry := now + EXPIRY_TIME }
              | _, _ => .error .invalidAmount

/-- Embedding of `prepare_payment_header(sender_address, x402_version,
payment_requirements)`: dispatch on `extra["type"]` and wrap the fresh
voucher into an unsigned header.  Clock parameters as in the two
constructors (`t1`, `t2` for the factory's two reads; the aggregator
reads once, at `t1`). -/
def prepare_payment_header (checksum : String → String)
    (chain_id_of : String → Option Nat)
    (recover : TypedData → String → String) (t1 t2 : Nat)
    (sender_address : String) (x402_version : Nat)
    (req : PaymentRequirements) : Except DeferredError PaymentHeader :=
  match req.extra with
  | none => .error .malformedRequirements
  | some extra =>
    match extra.type with
    | none => .error .malformedRequirements
    | some extra_type =>
      (if extra_type = "new" then
        create_new_voucher checksum chain_id_of t1 t2 sender_address req
      else if extra_type = "aggregation" then
        aggregate_voucher checksum chain_id_of recover t1 sender_address req
      else
        .error .malformedRequirements).map
      (fun voucher =>
        { x402Version := x402_version
          scheme := DEFERRED_SCHEME
          network := req.network
          payload := { signature := none, voucher := voucher } })

/-- Python's `s.startswith("0x")`. -/
def hex0x (s : String) : Bool :=
  match s.data with
  | '0' :: 'x' :: _ => true
  | _ => false

/-- Embedding of `sign_voucher(account, voucher)`: sign the voucher's typed message.
`sign` is the external account's `sign_message ∘ encode_typed_data`,
returning the hex signature; the source prepends `0x` when missing.
`none` when the typed data cannot be built. -/
def sign_voucher (checksum : String → String) (sign : TypedData → String)
    (voucher : DeferredEvmPayloadVoucher) : Option String :=
  (get_voucher_typed_data checksum voucher).map (fun td =>
    let s := sign td
    if hex0x s then s else "0x" ++ s)

/-! ## JSON values and the payload codec

`encode_payment` is `safe_base64_encode(json.dumps(payload))` and
`decode_payment` is `json.loads(safe_base64_decode(s))`.  JSON values
are modelled by the fragment the payment header uses (null,
non-negative integers, strings, objects); `dumpsJson` reproduces
Python's `json.dumps` output (`", "` / `": "` separators) on that
fragment, and `parseValue` models `json.loads` on escape-free input. -/

mutual
/-- JSON value fragment used by the payment header. -/
inductive Json where
  | null : Json
  | num : Nat → Json
  | str : String → Json
  | obj : JFields → Json
/-- Ordered key/value fields of a JSON object. -/
inductive JFields where
  | nil : JFields
  | cons : String → Json → JFields → JFields
end

/-- Decimal digits of `n`, most significant first, prepended to `acc`. -/
def natToCharsAux : Nat → List Char → List Char
  | 0, acc => acc
  | n + 1, acc =>
    natToCharsAux ((n + 1) / 10) (Nat.digitChar ((n + 1) % 10) :: acc)
decreasing_by exact Nat.div_lt_self (Nat.succ_pos n) (by omega)

/-- Decimal representation of `n` (Python `str(n)` for `n : Nat`). -/
def natToChars (n : Nat) : List Char :=
  if n = 0 then ['0'] else natToCharsAux n []

mutual
/-- Model of `json.dumps` (default separators) on the JSON fragment, as a
character list. -/
def dumpsJson : Json → List Char
  | .null => ['n', 'u', 'l', 'l']
  | .num n => natToChars n
  | .str s => '"' :: (s.data ++ ['"'])
  | .obj fs => '{' :: (dumpsFields fs ++ ['}'])
/-- Object body: `"key": value` items joined by `", "`. -/
def dumpsFields : JFields → List Char
  | .nil => []
  | .cons k v .nil =>
    '"' :: (k.data ++ ('"' :: ':' :: ' ' :: dumpsJson v))
  | .cons k v (.cons k2 v2 t) =>
    '"' :: (k.data ++ ('"' :: ':' :: ' ' ::
      (dumpsJson v ++ (',' :: ' ' :: dumpsFields (.cons k2 v2 t)))))
end

/-- Consume leading decimal digits, folding them onto `acc`. -/
def readDigits (acc : Nat) : List Char → Nat × List Char
  | [] => (acc, [])
  | c :: cs =>
    if c.isDigit then readDigits (acc * 10 + digitVal c) cs else (acc, c :: cs)

/-- Head of the remaining input is not a digit (or input is empty). -/
def nonDigitHead : List Char → Bool
  | [] => true
  | c :: _ => !c.isDigit

/-- Drop leading whitespace. -/
def skipWs : List Char → List Char
  | [] => []
  | c :: r => if c.isWhitespace then skipWs r else c :: r

/-- Consume a (escape-free) string body up to the closing quote. -/
def takeStr : List Char → Option (List Char × List Char)
  | [] => none
  | c :: r =>
    if c = '"' then some ([], r)
    else (takeStr r).map (fun p => (c :: p.1, p.2))

mutual
/-- Recursive-descent JSON value parser (model of `json.loads` on the
escape-free fragment); returns the value and the unconsumed suffix. -/
def parseValue (fuel : Nat) (l : List Char) : Option (Json × List Char) :=
  match fuel with
  | 0 => none
  | fuel + 1 =>
    match skipWs l with
    | [] => none
    | c :: r =>
      if c = 'n' then
        if r.take 3 = ['u', 'l', 'l'] then some (.null, r.drop 3) else none
      else if c = '"' then
        (takeStr r).map (fun p => (.str (String.mk p.1), p.2))
      else if c.isDigit then
        let p := readDigits (digitVal c) r
        some (.num p.1, p.2)
      else if c = '{' then
        match skipWs r with
        | [] => none
        | c1 :: r1 =>
          if c1 = '}' then some (.obj .nil, r1)
          else
            match parseFields fuel (c1 :: r1) with
            | some (fs, rest) =>
              match skipWs rest with
              | [] => none
              | c2 :: r2 => if c2 = '}' then some (.obj fs, r2) else none
            | none => none
      else none
/-- Parse one or more `"key": value` items separated by `,`. -/
def parseFields (fuel : Nat) (l : List Char) :
    Option (JFields × List Char) :=
  match fuel with
  | 0 => none
  | fuel + 1 =>
    match skipWs l with
    | [] => none
    | c :: r =>
      if c = '"' then
        match takeStr r with
        | some (k, r1) =>
          match skipWs r1 with
          | [] => none
          | c1 :: r2 =>
            if c1 = ':' then
              match parseValue fuel r2 with
              | some (v, r3) =>
                match skipWs r3 with
                | [] => some (.cons (String.mk k) v .nil, [])
                | c2 :: r4 =>
                  if c2 = ',' then
                    match parseFields fuel r4 with
                    | some (fs, r5) => some (.cons (String.mk k) v fs, r5)
                    | none => none
                  else some (.cons (String.mk k) v .nil, c2 :: r4)
              | none => none
            else none
        | none => none
      else none
end

mutual
/-- Fuel bound sufficient to parse a dumped value. -/
def jsizeV : Json → Nat
  | .null => 1
  | .num _ => 1
  | .str _ => 1
  | .obj fs => 1 + jsizeF fs
/-- Fuel bound sufficient to parse a dumped field list. -/
def jsizeF : JFields → Nat
  | .nil => 1
  | .cons _ v t => 1 + jsizeV v + jsizeF t
end

/-- A character that needs no JSON string escaping and is plain ASCII:
printable, not `"`, not `\`. -/
def cleanChar (c : Char) : Bool :=
  32 ≤ c.toNat && c.toNat < 127 && c ≠ '"' && c ≠ '\\'

/-- A string of clean characters. -/
def cleanStr (s : String) : Bool := s.data.all cleanChar

mutual
/-- Every string in the value is clean (so `json.dumps` emits it
verbatim, with no escaping). -/
def cleanJson : Json → Bool
  | .null => true
  | .num _ => true
  | .str s => cleanStr s
  | .obj fs => cleanFields fs
/-- Field-list version of `cleanJson` (keys included). -/
def cleanFields : JFields → Bool
  | .nil => true
  | .cons k v t => cleanStr k && cleanJson v && cleanFields t
end

/-- Sextet → URL-safe base64 alphabet character. -/
def b64Char (n : Nat) : Char :=
  if n < 26 then Char.ofNat ('A'.toNat + n)
  else if n < 52 then Char.ofNat ('a'.toNat + n - 26)
  else if n < 62 then Char.ofNat ('0'.toNat + n - 52)
  else if n = 62 then '-'
  else '_'

/-- URL-safe base64 alphabet character → sextet. -/
def b64Val (c : Char) : Option Nat :=
  if 'A' ≤ c && c ≤ 'Z' then some (c.toNat - 'A'.toNat)
  else if 'a' ≤ c && c ≤ 'z' then some (c.toNat - 'a'.toNat + 26)
  else if '0' ≤ c && c ≤ '9' then some (c.toNat - '0'.toNat + 52)
  else if c = '-' then some 62
  else if c = '_' then some 63
  else none

/-- Modelled from the spec: `safe_base64_encode` (`x402.encoding`, not
in the sources at hand) — unpadded URL-safe base64 of a byte list
(§4.6: "base64-encode using a URL-safe, unpadded alphabet"). -/
def b64encodeBytes : List Nat → List Char
  | b1 :: b2 :: b3 :: rest =>
    b64Char (b1 / 4) :: b64Char ((b1 % 4) * 16 + b2 / 16) ::
      b64Char ((b2 % 16) * 4 + b3 / 64) :: b64Char (b3 % 64) ::
      b64encodeBytes rest
  | [b1, b2] =>
    [b64Char (b1 / 4), b64Char ((b1 % 4) * 16 + b2 / 16),
      b64Char ((b2 % 16) * 4)]
  | [b1] => [b64Char (b1 / 4), b64Char ((b1 % 4) * 16)]
  | [] => []

/-- Modelled from the spec: `safe_base64_decode` (`x402.encoding`, not
in the sources at hand) — exact inverse of `b64encodeBytes`; `none` on
any character outside the alphabet, an impossible length, or nonzero
leftover bits. -/
def b64decodeChars : List Char → Option (List Nat)
  | [] => some []
  | [_] => none
  | [c1, c2] =>
    match b64Val c1, b64Val c2 with
    | some s1, some s2 =>
      if s2 % 16 = 0 then some [s1 * 4 + s2 / 16] else none
    | _, _ => none
  | [c1, c2, c3] =>
    match b64Val c1, b64Val c2, b64Val c3 with
    | some s1, some s2, some s3 =>
      if s3 % 4 = 0 then
        some [s1 * 4 + s2 / 16, (s2 % 16) * 16 + s3 / 4]
      else none
    | _, _, _ => none
  | c1 :: c2 :: c3 :: c4 :: rest =>
    match b64Val c1, b64Val c2, b64Val c3, b64Val c4,
        b64decodeChars rest with
    | some s1, some s2, some s3, some s4, some tail =>
      some ((s1 * 4 + s2 / 16) :: ((s2 % 16) * 16 + s3 / 4) ::
        ((s3 % 4) * 64 + s4) :: tail)
    | _, _, _, _, _ => none

/-- Model of `safe_base64_encode` on a string (UTF-8 bytes of ASCII text). -/
def safe_base64_encode (s : String) : String :=
  String.mk (b64encodeBytes (s.data.map Char.toNat))

/-- Model of `safe_base64_decode` on a string; `none` models the raised decode
error (invalid alphabet/length, or bytes that are not ASCII text). -/
def safe_base64_decode (s : String) : Option String :=
  match b64decodeChars s.data with
  | none => none
  | some bs =>
    if bs.all (fun b => b < 128) then some (String.mk (bs.map Char.ofNat))
    else none

/-- Model of `json.dumps` on the fragment, as a string. -/
def dumps (j : Json) : String := String.mk (dumpsJson j)

/-- Model of `json.loads` on the fragment: parse one value, allow trailing
whitespace, reject anything else left over. -/
def json_loads (s : String) : Option Json :=
  match parseValue (s.length + 1) s.data with
  | some (j, rest) => if skipWs rest = [] then some j else none
  | none => none

/-- Embedding of `encode_payment(payment_payload)`: JSON-serialize then base64. -/
def encode_payment (payment_payload : Json) : String :=
  safe_base64_encode (dumps payment_payload)

/-- Embedding of `decode_payment(encoded_payment)`: base64-decode then JSON-parse;
`none` models the raised `DecodeFailure`. -/
def decode_payment (encoded_payment : String) : Option Json :=
  (safe_base64_decode encoded_payment).bind json_loads

/-- Result of `model_dump(by_alias=True)` on a voucher, as its wire JSON object. -/
def voucherJson (v : DeferredEvmPayloadVoucher) : Json :=
  .obj (.cons "id" (.str v.id) (.cons "buyer" (.str v.buyer)
    (.cons "seller" (.str v.seller)
    (.cons "valueAggregate" (.str v.value_aggregate)
    (.cons "asset" (.str v.asset)
    (.cons "timestamp" (.num v.timestamp)
    (.cons "nonce" (.num v.nonce)
    (.cons "escrow" (.str v.escrow)
    (.cons "chainId" (.num v.chain_id)
    (.cons "expiry" (.num v.expiry) .nil))))))))))

/-- The payment header as the JSON dictionary `prepare_payment_header`
builds and `encode_payment` serializes. -/
def headerToJson (h : PaymentHeader) : Json :=
  .obj (.cons "x402Version" (.num h.x402Version)
    (.cons "scheme" (.str h.scheme)
    (.cons "network" (.str h.network)
    (.cons "payload" (.obj (.cons "signature"
        (match h.payload.signature with
          | none => .null
          | some s => .str s)
      (.cons "voucher" (voucherJson h.payload.voucher) .nil)))
      .nil))))

/-- Embedding of `sign_payment_header(account, payment_requirements, header)`: sign
the header's voucher, write the signature into the header (the source
mutates the passed dict in place at line 231), and return the encoded
payment.  The embedding returns the post-call state of the caller's
header together with the encoded string; any underlying failure is
wrapped ("Failed to sign payment header"). -/
def sign_payment_header (checksum : String → String)
    (sign : TypedData → String) (header : PaymentHeader) :
    Except DeferredError (PaymentHeader × String) :=
  match sign_voucher checksum sign header.payload.voucher with
  | none => .error .signingFailure
  | some sig =>
    let header2 : PaymentHeader :=
      { header with payload := { header.payload with signature := some sig } }
    .ok (header2, encode_payment (headerToJson header2))

/-- The aggregation `extra` dictionary carrying a prior voucher dump and
its signature. -/
def aggExtraOf (v : DeferredEvmPayloadVoucher) (sig : String) : ExtraDict :=
  { type := some "aggregation", voucher := some (voucherToDict v),
    signature := some sig }

/-! ## Concrete instances (used by closed witness theorems) -/

/-- Identity stand-in for the external checksum collaborator. -/
def idChecksum : String → String := fun s => s

/-- A one-entry network→chain-id table. -/
def exChainId : String → Option Nat :=
  fun n => if n = "base-sepolia" then some 84532 else none

/-- A recovery collaborator: the signature `"sigK"` recovers to key K's
address `"0xAbCd"`, anything else to a stranger. -/
def exRecover : TypedData → String → String :=
  fun _ sig => if sig = "sigK" then "0xAbCd" else "0xStranger"

/-- A signing collaborator returning a fixed un-prefixed hex string. -/
def exSign : TypedData → String := fun _ => "cafe"

/-- A small prior voucher. -/
def exVoucher : DeferredEvmPayloadVoucher :=
  { id := "0xid1", buyer := "0xAbCd", seller := "0xSeLLer",
    value_aggregate := "7", asset := "0xAsSeT", timestamp := 100,
    nonce := 1, escrow := "0xEsCrOw", chain_id := 84532, expiry := 5000 }

/-- The typed data of `exVoucher` under `idChecksum`. -/
def exTd : TypedData :=
  { eip712DomainType := [("name", "string"), ("version", "string"),
      ("chainId", "uint256"), ("verifyingContract", "address")]
    voucherType := [("id", "bytes32"), ("buyer", "address"),
      ("seller", "address"), ("valueAggregate", "uint256"),
      ("asset", "address"), ("timestamp", "uint64"),
      ("nonce", "uint256"), ("escrow", "address"),
      ("chainId", "uint256"), ("expiry", "uint64")]
    primaryType := "Voucher"
    domain_name := "DeferredPaymentEscrow"
    domain_version := "1"
    domain_chainId := 84532
    domain_verifyingContract := "0xEsCrOw"
    msg_id := "0xid1"
    msg_buyer := "0xAbCd"
    msg_seller := "0xSeLLer"
    msg_valueAggregate := 7
    msg_asset := "0xAsSeT"
    msg_timestamp := 100
    msg_nonce := 1
    msg_escrow := "0xEsCrOw"
    msg_chainId := 84532
    msg_expiry := 5000 }

/-- Aggregation requirements extending `exVoucher` by 500 units. -/
def exReqAgg : PaymentRequirements :=
  { scheme := "deferred", network := "base-sepolia",
    max_amount_required := "500", pay_to := "0xseller", asset := "0xasset",
    extra := some (aggExtraOf exVoucher "sigK") }

/-- The voucher `aggregate_voucher` produces from `exReqAgg` at time 200
for buyer `"0xABcd"`. -/
def exAggResult : DeferredEvmPayloadVoucher :=
  { id := "0xid1", buyer := "0xABcd", seller := "0xSeLLer",
    value_aggregate := "507", asset := "0xAsSeT", timestamp := 200,
    nonce := 2, escrow := "0xEsCrOw", chain_id := 84532,
    expiry := 200 + EXPIRY_TIME }

/-- A prior voucher whose running total (`2^65`) exceeds 64-bit range. -/
def bigVoucher : DeferredEvmPayloadVoucher :=
  { id := "0xid2", buyer := "0xAbCd", seller := "0xSeLLer",
    value_aggregate := "36893488147419103232", asset := "0xAsSeT",
    timestamp := 100, nonce := 41, escrow := "0xEsCrOw",
    chain_id := 84532, expiry := 5000 }

/-- Aggregation requirements adding a `2^64` charge to `bigVoucher`. -/
def bigReqAgg : PaymentRequirements :=
  { scheme := "deferred", network := "base-sepolia",
    max_amount_required := "18446744073709551616", pay_to := "0xseller",
    asset := "0xasset", extra := some (aggExtraOf bigVoucher "sigK") }

/-- The voucher `aggregate_voucher` produces from `bigReqAgg` at time 200
for buyer `"0xABcd"`: `2^64 + 2^65` units. -/
def bigAggResult : DeferredEvmPayloadVoucher :=
  { id := "0xid2", buyer := "0xABcd", seller := "0xSeLLer",
    value_aggregate := "55340232221128654848", asset := "0xAsSeT",
    timestamp := 200, nonce := 42, escrow := "0xEsCrOw",
    chain_id := 84532, expiry := 200 + EXPIRY_TIME }

/-- A prior voucher already expired at time 200. -/
def expVoucher : DeferredEvmPayloadVoucher :=
  { id := "0xid3", buyer := "0xAbCd", seller := "0xSeLLer",
    value_aggregate := "7", asset := "0xAsSeT", timestamp := 100,
    nonce := 1, escrow := "0xEsCrOw", chain_id := 84532, expiry := 150 }

/-- Aggregation requirements naming the expired voucher, with the valid
signature `"sigK"`. -/
def expReqAgg : PaymentRequirements :=
  { scheme := "deferred", network := "base-sepolia",
    max_amount_required := "500", pay_to := "0xseller", asset := "0xasset",
    extra := some (aggExtraOf expVoucher "sigK") }

/-- The seed dictionary `{id, escrow}` of a brand-new voucher. -/
def exSeed : VoucherDict :=
  { id := some "0xid9", escrow := some "0xEsCrOw" }

/-- The `extra` dictionary of a type-`"new"` requirement. -/
def exNewExtra : ExtraDict :=
  { type := some "new", voucher := some exSeed, signature := none }

/-- Requirements for a brand-new voucher. -/
def exReqNew : PaymentRequirements :=
  { scheme := "deferred", network := "base-sepolia",
    max_amount_required := "1000", pay_to := "0xSeLLer",
    asset := "0xAsSeT", extra := some exNewExtra }

/-- A seed dictionary lacking `escrow`. -/
def exSeedNoEscrow : VoucherDict := { id := some "0xid9" }

/-- Requirements whose `extra.voucher` seed lacks `escrow`. -/
def exReqNewNoEscrow : PaymentRequirements :=
  { exReqNew with
    extra := some { type := some "new", voucher := some exSeedNoEscrow,
                    signature := none } }

/-- An unsigned payment header wrapping `exVoucher`. -/
def exHeader : PaymentHeader :=
  { x402Version := 1, scheme := "deferred", network := "base-sepolia",
    payload := { signature := none, voucher := exVoucher } }

/-- State of `exHeader` after `sign_payment_header` wrote the signature into it. -/
def exHeaderSigned : PaymentHeader :=
  { exHeader with
    payload := { exHeader.payload with signature := some "0xcafe" } }

/-! ## Lemmas: decimal digit printing and parsing -/

theorem natToCharsAux_acc (n : Nat) (acc : List Char) :
    natToCharsAux n acc = natToCharsAux n [] ++ acc := by
  induction n using Nat.strongRecOn generalizing acc with
  | _ n ih =>
    match n with
    | 0 => simp [natToCharsAux]
    | n + 1 =>
      rw [natToCharsAux.eq_2, natToCharsAux.eq_2]
      rw [ih ((n + 1) / 10) (Nat.div_lt_self (Nat.succ_pos n) (by omega)),
          ih ((n + 1) / 10) (Nat.div_lt_self (Nat.succ_pos n) (by omega))
            [Nat.digitChar ((n + 1) % 10)]]
      simp

theorem digitChar_isDigit {d : Nat} (h : d < 10) :
    (Nat.digitChar d).isDigit = true := by
  interval_cases d <;> decide

theorem digitVal_digitChar {d : Nat} (h : d < 10) :
    digitVal (Nat.digitChar d) = d := by
  interval_cases d <;> decide

theorem natToCharsAux_digits (n : Nat) :
    ∀ c ∈ natToCharsAux n [], c.isDigit = true := by
  induction n using Nat.strongRecOn with
  | _ n ih =>
    match n with
    | 0 => simp [natToCharsAux]
    | n + 1 =>
      rw [natToCharsAux.eq_2, natToCharsAux_acc]
      intro c hc
      rcases List.mem_append.1 hc with h | h
      · exact ih _ (Nat.div_lt_self (Nat.succ_pos n) (by omega)) c h
      · rcases List.mem_singleton.1 h with rfl
        exact digitChar_isDigit (Nat.mod_lt _ (by omega))

theorem foldl_natToCharsAux (n : Nat) :
    List.foldl (fun a c => a * 10 + digitVal c) 0 (natToCharsAux n []) = n := by
  induction n using Nat.strongRecOn with
  | _ n ih =>
    match n with
    | 0 => simp [natToCharsAux]
    | n + 1 =>
      rw [natToCharsAux.eq_2, natToCharsAux_acc, List.foldl_append]
      rw [ih ((n + 1) / 10) (Nat.div_lt_self (Nat.succ_pos n) (by omega))]
      simp only [List.foldl]
      rw [digitVal_digitChar (Nat.mod_lt _ (by omega))]
      omega

theorem natToChars_ne_nil (n : Nat) : natToChars n ≠ [] := by
  unfold natToChars
  split
  · simp
  · rename_i h
    match hn : n, h with
    | n + 1, _ =>
      rw [natToCharsAux.eq_2, natToCharsAux_acc]
      simp

theorem natToChars_digits (n : Nat) : ∀ c ∈ natToChars n, c.isDigit = true := by
  unfold natToChars
  split
  · simp
  · exact natToCharsAux_digits n

theorem foldl_natToChars (n : Nat) :
    List.foldl (fun a c => a * 10 + digitVal c) 0 (natToChars n) = n := by
  unfold natToChars
  split
  · simp_all [digitVal]
  · exact foldl_natToCharsAux n

theorem readDigits_append (ds : List Char) (acc : Nat) (rest : List Char)
    (hd : ∀ c ∈ ds, c.isDigit = true) (hr : nonDigitHead rest = true) :
    readDigits acc (ds ++ rest) =
      (List.foldl (fun a c => a * 10 + digitVal c) acc ds, rest) := by
  induction ds generalizing acc with
  | nil =>
    simp only [List.nil_append, List.foldl]
    match rest, hr with
    | [], _ => rfl
    | c :: cs, hr =>
      simp only [nonDigitHead, Bool.not_eq_true'] at hr
      simp [readDigits, hr]
  | cons c cs ih =>
    simp only [List.cons_append, readDigits, hd c (by simp), if_true, List.foldl]
    exact ih _ (fun x hx => hd x (by simp [hx]))

theorem isDigit_not_ws {c : Char} (h : c.isDigit = true) :
    c.isWhitespace = false := by
  simp only [Char.isDigit, Bool.and_eq_true, decide_eq_true_eq] at h
  simp only [Char.isWhitespace, Bool.or_eq_false_iff, decide_eq_false_iff_not]
  refine ⟨⟨⟨?_, ?_⟩, ?_⟩, ?_⟩ <;> rintro rfl <;> simp_all

/-! ## Lemmas: tokens of the JSON parser -/

theorem mk_data (s : String) : String.mk s.data = s := by cases s; rfl

theorem skipWs_of_not_ws {c : Char} (l : List Char)
    (h : c.isWhitespace = false) : skipWs (c :: l) = c :: l := by
  simp [skipWs, h]

theorem skipWs_space (l : List Char) : skipWs (' ' :: l) = skipWs l := by
  simp [skipWs]

theorem takeStr_append (s rest : List Char) (h : ∀ c ∈ s, ¬ c = '"') :
    takeStr (s ++ '"' :: rest) = some (s, rest) := by
  induction s with
  | nil => simp [takeStr]
  | cons c cs ih =>
    simp only [List.cons_append, takeStr]
    rw [if_neg (h c (by simp))]
    simp only [List.append_eq]
    rw [ih (fun x hx => h x (by simp [hx]))]
    rfl

theorem cleanStr_no_quote {s : String} (h : cleanStr s = true) :
    ∀ c ∈ s.data, ¬ c = '"' := by
  intro c hc
  have := (List.all_eq_true.1 h) c hc
  simp only [cleanChar, Bool.and_eq_true, decide_eq_true_eq, bne_iff_ne,
    ne_eq, decide_eq_true_eq] at this
  intro hq
  subst hq
  simp at this

theorem parseValue_space (fuel : Nat) (l : List Char) :
    parseValue fuel (' ' :: l) = parseValue fuel l := by
  cases fuel with
  | zero => rfl
  | succ f => simp only [parseValue, skipWs_space]

theorem parseFields_space (fuel : Nat) (l : List Char) :
    parseFields fuel (' ' :: l) = parseFields fuel l := by
  cases fuel with
  | zero => rfl
  | succ f => simp only [parseFields, skipWs_space]

theorem parseValue_num (n : Nat) (fuel : Nat) (rest : List Char)
    (hr : nonDigitHead rest = true) :
    parseValue (fuel + 1) (natToChars n ++ rest) = some (.num n, rest) := by
  obtain ⟨c, cs, hcs⟩ : ∃ c cs, natToChars n = c :: cs := by
    match h : natToChars n with
    | [] => exact absurd h (natToChars_ne_nil n)
    | c :: cs => exact ⟨c, cs, rfl⟩
  have hcd : c.isDigit = true := natToChars_digits n c (by simp [hcs])
  have hcn : ¬ c = 'n' := by rintro rfl; simp at hcd
  have hcq : ¬ c = '"' := by rintro rfl; simp at hcd
  rw [hcs, List.cons_append]
  simp only [parseValue]
  rw [skipWs_of_not_ws _ (isDigit_not_ws hcd)]
  dsimp only
  rw [if_neg hcn, if_neg hcq, if_pos hcd]
  have hread := readDigits_append cs (digitVal c) rest
    (fun x hx => natToChars_digits n x (by simp [hcs, hx])) hr
  rw [hread]
  have hfold : List.foldl (fun a c => a * 10 + digitVal c) (digitVal c) cs = n := by
    have := foldl_natToChars n
    rw [hcs] at this
    simpa using this
  simp [hfold]

/-! ## The parser inverts `dumpsJson` -/

theorem jsizeV_pos (j : Json) : 1 ≤ jsizeV j := by
  cases j <;> simp [jsizeV]

theorem nonDigitHead_cons (c : Char) (l : List Char) :
    nonDigitHead (c :: l) = !c.isDigit := rfl

mutual

theorem parseValue_dumps (j : Json) (fuel : Nat) (rest : List Char)
    (hclean : cleanJson j = true) (hfuel : jsizeV j ≤ fuel)
    (hrest : nonDigitHead rest = true) :
    parseValue fuel (dumpsJson j ++ rest) = some (j, rest) := by
  match fuel with
  | 0 => exact absurd (Nat.le_trans (jsizeV_pos j) hfuel) (by omega)
  | fuel + 1 =>
    match j with
    | .null =>
      simp only [dumpsJson, List.cons_append, List.nil_append, parseValue]
      rw [skipWs_of_not_ws _ (by decide)]
      dsimp only
      rw [if_pos rfl]
      simp
    | .num n => exact parseValue_num n fuel rest hrest
    | .str s =>
      simp only [dumpsJson, List.cons_append, List.append_assoc,
        List.singleton_append, List.nil_append, parseValue]
      rw [skipWs_of_not_ws _ (by decide)]
      dsimp only
      rw [if_neg (by decide), if_pos rfl]
      rw [takeStr_append s.data rest (cleanStr_no_quote hclean)]
      simp [mk_data]
    | .obj .nil =>
      simp only [dumpsJson, dumpsFields, List.nil_append, List.cons_append,
        List.singleton_append, parseValue]
      rw [skipWs_of_not_ws _ (by decide)]
      dsimp only
      rw [if_neg (by decide), if_neg (by decide), if_neg (by decide),
        if_pos rfl]
      rw [skipWs_of_not_ws _ (by decide)]
      dsimp only
      rw [if_pos rfl]
    | .obj (.cons k v t) =>
      have hfs : parseFields fuel
          (dumpsFields (.cons k v t) ++ ('}' :: rest)) =
          some (.cons k v t, '}' :: rest) :=
        parseFields_dumps k v t fuel rest (by simpa [cleanJson] using hclean)
          (by simp only [jsizeV] at hfuel; omega)
      obtain ⟨r', hr'⟩ : ∃ r', dumpsFields (.cons k v t) ++ ('}' :: rest) =
          '"' :: r' := by
        cases t <;> simp [dumpsFields]
      simp only [dumpsJson, List.cons_append, List.append_assoc,
        List.singleton_append, List.nil_append, parseValue]
      rw [skipWs_of_not_ws _ (by decide)]
      dsimp only
      rw [if_neg (by decide), if_neg (by decide), if_neg (by decide),
        if_pos rfl]
      rw [hr', skipWs_of_not_ws _ (by decide)]
      dsimp only
      rw [if_neg (by decide), ← hr', hfs]
      dsimp only
      rw [skipWs_of_not_ws _ (by decide)]
      dsimp only
      rw [if_pos rfl]

theorem parseFields_dumps (k : String) (v : Json) (t : JFields)
    (fuel : Nat) (rr : List Char)
    (hclean : cleanFields (.cons k v t) = true)
    (hfuel : jsizeF (.cons k v t) ≤ fuel) :
    parseFields fuel (dumpsFields (.cons k v t) ++ ('}' :: rr)) =
      some (.cons k v t, '}' :: rr) := by
  match fuel with
  | 0 => exact absurd hfuel (by simp [jsizeF])
  | fuel + 1 =>
    simp only [cleanFields, Bool.and_eq_true] at hclean
    obtain ⟨⟨hk, hv⟩, ht⟩ := hclean
    match t with
    | .nil =>
      simp only [dumpsFields, List.cons_append, List.append_assoc,
        List.singleton_append, List.nil_append, parseFields]
      rw [skipWs_of_not_ws _ (by decide)]
      dsimp only
      rw [if_pos rfl]
      rw [takeStr_append k.data _ (cleanStr_no_quote hk)]
      dsimp only
      rw [skipWs_of_not_ws _ (by decide)]
      dsimp only
      rw [if_pos rfl]
      rw [parseValue_space]
      rw [parseValue_dumps v fuel ('}' :: rr) hv
        (by simp only [jsizeF] at hfuel; omega)
        (by rw [nonDigitHead_cons]; decide)]
      dsimp only
      rw [skipWs_of_not_ws _ (by decide)]
      dsimp only
      rw [if_neg (by decide)]
    | .cons k2 v2 t2 =>
      simp only [dumpsFields, List.cons_append, List.append_assoc,
        List.singleton_append, List.nil_append, parseFields]
      rw [skipWs_of_not_ws _ (by decide)]
      dsimp only
      rw [if_pos rfl]
      rw [takeStr_append k.data _ (cleanStr_no_quote hk)]
      dsimp only
      rw [skipWs_of_not_ws _ (by decide)]
      dsimp only
      rw [if_pos rfl]
      rw [parseValue_space]
      rw [parseValue_dumps v fuel
        (',' :: ' ' :: (dumpsFields (.cons k2 v2 t2) ++ ('}' :: rr))) hv
        (by simp only [jsizeF] at hfuel; omega)
        (by rw [nonDigitHead_cons]; decide)]
      dsimp only
      rw [skipWs_of_not_ws _ (by decide)]
      dsimp only
      rw [if_pos rfl]
      rw [parseFields_space]
      rw [parseFields_dumps k2 v2 t2 fuel rr ht
        (by simp only [jsizeF] at hfuel ⊢; omega)]

end

/-! ## Fuel bound and character-set facts about `dumpsJson` output -/

mutual

theorem jsizeV_le_dumps (j : Json) : jsizeV j ≤ (dumpsJson j).length := by
  match j with
  | .null => simp [jsizeV, dumpsJson]
  | .num n =>
    have h := natToChars_ne_nil n
    simp only [jsizeV, dumpsJson]
    cases hc : natToChars n with
    | nil => exact absurd hc h
    | cons c cs => simp
  | .str s => simp [jsizeV, dumpsJson]
  | .obj fs =>
    have h := jsizeF_le_dumps fs
    simp only [jsizeV, dumpsJson, List.length_cons, List.length_append,
      List.length_nil]
    omega

theorem jsizeF_le_dumps (fs : JFields) :
    jsizeF fs ≤ (dumpsFields fs).length + 1 := by
  match fs with
  | .nil => exact Nat.le_refl 1
  | .cons k v .nil =>
    have h := jsizeV_le_dumps v
    simp only [jsizeF, jsizeF.eq_1, dumpsFields, List.length_cons,
      List.length_append]
    omega
  | .cons k v (.cons k2 v2 t2) =>
    have h1 := jsizeV_le_dumps v
    have h2 := jsizeF_le_dumps (.cons k2 v2 t2)
    simp only [jsizeF, dumpsFields, List.length_cons, List.length_append] at *
    omega

end

theorem cleanChar_toNat_lt {c : Char} (h : cleanChar c = true) :
    c.toNat < 128 := by
  simp only [cleanChar, Bool.and_eq_true, decide_eq_true_eq] at h
  omega

theorem isDigit_toNat_lt {c : Char} (h : c.isDigit = true) :
    c.toNat < 128 := by
  simp only [Char.isDigit, Bool.and_eq_true, decide_eq_true_eq] at h
  obtain ⟨h1, h2⟩ := h
  have : c.val.toNat ≤ 57 := by exact_mod_cast h2
  simpa [Char.toNat] using (by omega : c.val.toNat < 128)

mutual

theorem dumpsJson_ascii (j : Json) (h : cleanJson j = true) :
    ∀ c ∈ dumpsJson j, c.toNat < 128 := by
  match j with
  | .null =>
    intro c hc
    simp only [dumpsJson, List.mem_cons, List.not_mem_nil, or_false] at hc
    rcases hc with rfl | rfl | rfl | rfl <;> decide
  | .num n =>
    intro c hc
    exact isDigit_toNat_lt (natToChars_digits n c hc)
  | .str s =>
    intro c hc
    simp only [dumpsJson, List.mem_cons, List.mem_append,
      List.mem_singleton, List.not_mem_nil, or_false] at hc
    rcases hc with rfl | hc | rfl
    · decide
    · exact cleanChar_toNat_lt (List.all_eq_true.1 h c hc)
    · decide
  | .obj fs =>
    intro c hc
    simp only [dumpsJson, List.mem_cons, List.mem_append,
      List.mem_singleton, List.not_mem_nil, or_false] at hc
    rcases hc with rfl | hc | rfl
    · decide
    · exact dumpsFields_ascii fs h c hc
    · decide

theorem dumpsFields_ascii (fs : JFields) (h : cleanFields fs = true) :
    ∀ c ∈ dumpsFields fs, c.toNat < 128 := by
  match fs with
  | .nil => intro c hc; simp [dumpsFields] at hc
  | .cons k v .nil =>
    simp only [cleanFields, Bool.and_eq_true] at h
    obtain ⟨⟨hk, hv⟩, _⟩ := h
    intro c hc
    simp only [dumpsFields, List.mem_cons, List.mem_append,
      List.not_mem_nil, or_false] at hc
    rcases hc with rfl | hc | rfl | rfl | rfl | hc
    · decide
    · exact cleanChar_toNat_lt (List.all_eq_true.1 hk c hc)
    · decide
    · decide
    · decide
    · exact dumpsJson_ascii v hv c hc
  | .cons k v (.cons k2 v2 t2) =>
    simp only [cleanFields, Bool.and_eq_true] at h
    obtain ⟨⟨hk, hv⟩, ht⟩ := h
    intro c hc
    simp only [dumpsFields, List.mem_cons, List.mem_append,
      List.not_mem_nil, or_false] at hc
    rcases hc with rfl | hc | rfl | rfl | rfl | hc | rfl | rfl | hc
    · decide
    · exact cleanChar_toNat_lt (List.all_eq_true.1 hk c hc)
    · decide
    · decide
    · decide
    · exact dumpsJson_ascii v hv c hc
    · decide
    · decide
    · exact dumpsFields_ascii (.cons k2 v2 t2)
        (by simpa [cleanFields] using ht) c hc

end

/-! ## Base64 round-trip -/

theorem b64Val_b64Char : ∀ n, n < 64 → b64Val (b64Char n) = some n := by
  decide

theorem b64decode_encode : ∀ bs : List Nat, (∀ b ∈ bs, b < 256) →
    b64decodeChars (b64encodeBytes bs) = some bs
  | [], _ => rfl
  | [b1], h => by
    have hb1 : b1 < 256 := h b1 (by simp)
    simp only [b64encodeBytes, b64decodeChars]
    rw [b64Val_b64Char _ (by omega), b64Val_b64Char _ (by omega)]
    dsimp only
    rw [if_pos (by omega)]
    congr 1
    congr 1
    omega
  | [b1, b2], h => by
    have hb1 : b1 < 256 := h b1 (by simp)
    have hb2 : b2 < 256 := h b2 (by simp)
    simp only [b64encodeBytes, b64decodeChars]
    rw [b64Val_b64Char _ (by omega), b64Val_b64Char _ (by omega),
      b64Val_b64Char _ (by omega)]
    dsimp only
    rw [if_pos (by omega)]
    congr 1
    congr 1
    · omega
    · congr 1
      omega
  | b1 :: b2 :: b3 :: rest, h => by
    have hb1 : b1 < 256 := h b1 (by simp)
    have hb2 : b2 < 256 := h b2 (by simp)
    have hb3 : b3 < 256 := h b3 (by simp)
    have hrest := b64decode_encode rest (fun b hb => h b (by simp [hb]))
    match hrec : b64encodeBytes rest with
    | [] =>
      simp only [b64encodeBytes, hrec, b64decodeChars]
      rw [b64Val_b64Char _ (by omega), b64Val_b64Char _ (by omega),
        b64Val_b64Char _ (by omega), b64Val_b64Char _ (by omega)]
      rw [hrec] at hrest
      dsimp only
      rw [show b64decodeChars [] = some [] from rfl] at hrest
      cases hrest
      congr 1
      congr 1
      · omega
      · congr 1
        · omega
        · congr 1
          omega
    | c :: cs =>
      simp only [b64encodeBytes, hrec, b64decodeChars]
      rw [b64Val_b64Char _ (by omega), b64Val_b64Char _ (by omega),
        b64Val_b64Char _ (by omega), b64Val_b64Char _ (by omega)]
      rw [hrec] at hrest
      rw [hrest]
      dsimp only
      congr 1
      congr 1
      · omega
      · congr 1
        · omega
        · congr 1
          omega

/-! ## The payload codec round-trip -/

theorem safe_base64_roundtrip (s : String)
    (h : ∀ c ∈ s.data, c.toNat < 128) :
    safe_base64_decode (safe_base64_encode s) = some s := by
  unfold safe_base64_encode safe_base64_decode
  have hdata : (String.mk (b64encodeBytes (s.data.map Char.toNat))).data =
      b64encodeBytes (s.data.map Char.toNat) := rfl
  rw [hdata]
  rw [b64decode_encode (s.data.map Char.toNat) (by
    intro b hb
    obtain ⟨c, hc, rfl⟩ := List.mem_map.1 hb
    exact Nat.lt_of_lt_of_le (h c hc) (by omega))]
  dsimp only
  rw [if_pos (by
    apply List.all_eq_true.2
    intro b hb
    obtain ⟨c, hc, rfl⟩ := List.mem_map.1 hb
    simpa using h c hc)]
  rw [List.map_map]
  have : s.data.map (Char.ofNat ∘ Char.toNat) = s.data :=
    List.map_congr_left (fun c _ => Char.ofNat_toNat c) |>.trans s.data.map_id
  rw [this, mk_data]

theorem json_loads_dumps (j : Json) (h : cleanJson j = true) :
    json_loads (dumps j) = some j := by
  have hp : parseValue ((dumpsJson j).length + 1) (dumpsJson j ++ []) =
      some (j, []) :=
    parseValue_dumps j ((dumpsJson j).length + 1) [] h
      (Nat.le_trans (jsizeV_le_dumps j) (Nat.le_succ _)) rfl
  rw [List.append_nil] at hp
  unfold json_loads dumps
  rw [show (String.mk (dumpsJson j)).length = (dumpsJson j).length from rfl,
    show (String.mk (dumpsJson j)).data = dumpsJson j from rfl, hp]
  rfl

theorem decode_encode_clean (j : Json) (h : cleanJson j = true) :
    decode_payment (encode_payment j) = some j := by
  unfold decode_payment encode_payment
  rw [safe_base64_roundtrip (dumps j) (by
    intro c hc
    exact dumpsJson_ascii j h c hc)]
  simpa using json_loads_dumps j h

/-! ## The aggregator -/

theorem validate_agg_extraOf (v : DeferredEvmPayloadVoucher) (sig : String) :
    validate_aggregation_extra (aggExtraOf v sig) = some (sig, v) := rfl

/-- Success characterization of `aggregate_voucher`: a produced voucher
is exactly the merge record, and every validation passed. -/
theorem aggregate_ok (checksum : String → String)
    (chain_id_of : String → Option Nat)
    (recover : TypedData → String → String) (now : Nat) (buyer : String)
    (req : PaymentRequirements) (v : DeferredEvmPayloadVoucher)
    (sig : String) (w : DeferredEvmPayloadVoucher)
    (hextra : req.extra = some (aggExtraOf v sig))
    (hok : aggregate_voucher checksum chain_id_of recover now buyer req =
      .ok w) :
    ∃ m va, str_to_int req.max_amount_required = some m ∧
      str_to_int v.value_aggregate = some va ∧
      chain_id_of req.network = some v.chain_id ∧
      lowerEq req.pay_to v.seller = true ∧
      lowerEq req.asset v.asset = true ∧
      now ≤ v.expiry ∧ v.timestamp ≤ now ∧
      verify_voucher checksum recover v sig buyer = some true ∧
      w = { id := v.id, buyer := checksum buyer, seller := v.seller,
            value_aggregate := int_to_str (m + va), asset := v.asset,
            timestamp := now, nonce := v.nonce + 1, escrow := v.escrow,
            chain_id := v.chain_id, expiry := now + EXPIRY_TIME } := by
  rw [aggregate_voucher, hextra] at hok
  dsimp only at hok
  rw [validate_agg_extraOf] at hok
  dsimp only at hok
  split at hok
  · exact absurd hok (by simp)
  rename_i hseller
  split at hok
  · exact absurd hok (by simp)
  rename_i hasset
  split at hok
  · exact absurd hok (by simp)
  rename_i cid hcid
  split at hok
  · exact absurd hok (by simp)
  rename_i hchain
  split at hok
  · exact absurd hok (by simp)
  rename_i hexp
  split at hok
  · exact absurd hok (by simp)
  rename_i hts
  split at hok
  · exact absurd hok (by simp)
  · exact absurd hok (by simp)
  rename_i hver
  split at hok
  · rename_i m va hm hva
    refine ⟨m, va, hm, hva, ?_, ?_, ?_, ?_, ?_, hver, ?_⟩
    · rw [hcid]
      congr 1
      omega
    · simpa using hseller
    · simpa using hasset
    · omega
    · omega
    · simpa using hok.symm
  all_goals exact absurd hok (by simp)

/-- C1: for requirements passing all aggregation validations,
`aggregate_voucher` returns a voucher whose `value_aggregate` is the
decimal encoding of the arbitrary-precision sum of the prior total and
the new charge, and whose `nonce` is the prior nonce plus one —
including values beyond 64-bit range. -/
theorem aggregate_value_additive (checksum : String → String)
    (chain_id_of : String → Option Nat)
    (recover : TypedData → String → String) (now : Nat) (buyer : String)
    (req : PaymentRequirements) (v : DeferredEvmPayloadVoucher)
    (sig : String) (w : DeferredEvmPayloadVoucher) (va m : Int)
    (hextra : req.extra = some (aggExtraOf v sig))
    (hva : str_to_int v.value_aggregate = some va)
    (hm : str_to_int req.max_amount_required = some m)
    (_hva0 : 0 ≤ va) (_hm0 : 0 ≤ m)
    (hok : aggregate_voucher checksum chain_id_of recover now buyer req =
      .ok w) :
    w.value_aggregate = int_to_str (va + m) ∧ w.nonce = v.nonce + 1 := by
  obtain ⟨m', va', hm', hva', -, -, -, -, -, -, hw⟩ :=
    aggregate_ok checksum chain_id_of recover now buyer req v sig w
      hextra hok
  rw [hm] at hm'
  rw [hva] at hva'
  cases hm'
  cases hva'
  subst hw
  exact ⟨by rw [Int.add_comm], rfl⟩

/-- C1 witness: aggregating a `2^64` charge onto a `2^65` running total
yields the decimal encoding of `2^64 + 2^65` and increments the nonce. -/
theorem aggregate_value_additive_witness :
    bigAggResult.value_aggregate =
        int_to_str ((36893488147419103232 : Int) + 18446744073709551616) ∧
      bigAggResult.nonce = bigVoucher.nonce + 1 :=
  aggregate_value_additive idChecksum exChainId exRecover 200 "0xABcd"
    bigReqAgg bigVoucher "sigK" bigAggResult 36893488147419103232
    18446744073709551616 rfl (by decide) (by decide) (by decide) (by decide)
    (by decide)

/-- C7: a successful aggregation preserves `id`, `seller`, `asset`,
`escrow` and `chain_id` from the prior voucher, normalizes the input
buyer, stamps the current time, and expires 30 days later. -/
theorem aggregate_frame (checksum : String → String)
    (chain_id_of : String → Option Nat)
    (recover : TypedData → String → String) (now : Nat) (buyer : String)
    (req : PaymentRequirements) (v : DeferredEvmPayloadVoucher)
    (sig : String) (w : DeferredEvmPayloadVoucher)
    (hextra : req.extra = some (aggExtraOf v sig))
    (hok : aggregate_voucher checksum chain_id_of recover now buyer req =
      .ok w) :
    w.id = v.id ∧ w.seller = v.seller ∧ w.asset = v.asset ∧
      w.escrow = v.escrow ∧ w.chain_id = v.chain_id ∧
      w.buyer = checksum buyer ∧ w.timestamp = now ∧
      w.expiry = now + EXPIRY_TIME := by
  obtain ⟨m, va, -, -, -, -, -, -, -, -, hw⟩ :=
    aggregate_ok checksum chain_id_of recover now buyer req v sig w
      hextra hok
  subst hw
  exact ⟨rfl, rfl, rfl, rfl, rfl, rfl, rfl, rfl⟩

/-- C7 witness at a concrete aggregation. -/
theorem aggregate_frame_witness :
    exAggResult.id = exVoucher.id ∧ exAggResult.seller = exVoucher.seller ∧
      exAggResult.asset = exVoucher.asset ∧
      exAggResult.escrow = exVoucher.escrow ∧
      exAggResult.chain_id = exVoucher.chain_id ∧
      exAggResult.buyer = idChecksum "0xABcd" ∧
      exAggResult.timestamp = 200 ∧
      exAggResult.expiry = 200 + EXPIRY_TIME :=
  aggregate_frame idChecksum exChainId exRecover 200 "0xABcd" exReqAgg
    exVoucher "sigK" exAggResult rfl (by decide)

/-- C10: the successor voucher's `seller`, `asset` and `escrow` strings
are copied verbatim from the prior voucher — no checksum normalization
is applied to them (only the buyer is re-normalized) — so each is in
normalized form exactly when the prior voucher's was. -/
theorem aggregate_copies_addresses_verbatim (checksum : String → String)
    (chain_id_of : String → Option Nat)
    (recover : TypedData → String → String) (now : Nat) (buyer : String)
    (req : PaymentRequirements) (v : DeferredEvmPayloadVoucher)
    (sig : String) (w : DeferredEvmPayloadVoucher)
    (hextra : req.extra = some (aggExtraOf v sig))
    (hok : aggregate_voucher checksum chain_id_of recover now buyer req =
      .ok w) :
    w.seller = v.seller ∧ w.asset = v.asset ∧ w.escrow = v.escrow ∧
      (checksum w.seller = w.seller ↔ checksum v.seller = v.seller) ∧
      (checksum w.asset = w.asset ↔ checksum v.asset = v.asset) ∧
      (checksum w.escrow = w.escrow ↔ checksum v.escrow = v.escrow) ∧
      w.buyer = checksum buyer := by
  obtain ⟨m, va, -, -, -, -, -, -, -, -, hw⟩ :=
    aggregate_ok checksum chain_id_of recover now buyer req v sig w
      hextra hok
  subst hw
  exact ⟨rfl, rfl, rfl, Iff.rfl, Iff.rfl, Iff.rfl, rfl⟩

/-- C10 witness: the mixed-case `seller`/`asset`/`escrow` of the prior
voucher survive unchanged under an upper-casing checksum collaborator. -/
theorem aggregate_copies_addresses_verbatim_witness :
    exAggResult.seller = exVoucher.seller ∧
      exAggResult.asset = exVoucher.asset ∧
      exAggResult.escrow = exVoucher.escrow ∧
      (idChecksum exAggResult.seller = exAggResult.seller ↔
        idChecksum exVoucher.seller = exVoucher.seller) ∧
      (idChecksum exAggResult.asset = exAggResult.asset ↔
        idChecksum exVoucher.asset = exVoucher.asset) ∧
      (idChecksum exAggResult.escrow = exAggResult.escrow ↔
        idChecksum exVoucher.escrow = exVoucher.escrow) ∧
      exAggResult.buyer = idChecksum "0xABcd" :=
  aggregate_copies_addresses_verbatim idChecksum exChainId exRecover 200
    "0xABcd" exReqAgg exVoucher "sigK" exAggResult rfl (by decide)

/-- C2: the aggregator's validations run in the fixed order seller,
asset, chain id, expiry, timestamp-in-future, signature; the first
failing check determines the error, and an error means no voucher.  In
particular an expired prior voucher fails with `VoucherExpired`
regardless of its signature. -/
theorem aggregate_validation_order (checksum : String → String)
    (chain_id_of : String → Option Nat)
    (recover : TypedData → String → String) (now : Nat) (buyer : String)
    (req : PaymentRequirements) (v : DeferredEvmPayloadVoucher)
    (sig : String) (cid : Nat)
    (hextra : req.extra = some (aggExtraOf v sig))
    (hcid : chain_id_of req.network = some cid) :
    (lowerEq req.pay_to v.seller = false →
      aggregate_voucher checksum chain_id_of recover now buyer req =
        .error .invalidSeller) ∧
    (lowerEq req.pay_to v.seller = true →
      lowerEq req.asset v.asset = false →
      aggregate_voucher checksum chain_id_of recover now buyer req =
        .error .invalidAsset) ∧
    (lowerEq req.pay_to v.seller = true →
      lowerEq req.asset v.asset = true → cid ≠ v.chain_id →
      aggregate_voucher checksum chain_id_of recover now buyer req =
        .error .invalidChainId) ∧
    (lowerEq req.pay_to v.seller = true →
      lowerEq req.asset v.asset = true → cid = v.chain_id →
      v.expiry < now →
      aggregate_voucher checksum chain_id_of recover now buyer req =
        .error .voucherExpired) ∧
    (lowerEq req.pay_to v.seller = true →
      lowerEq req.asset v.asset = true → cid = v.chain_id →
      now ≤ v.expiry → now < v.timestamp →
      aggregate_voucher checksum chain_id_of recover now buyer req =
        .error .voucherTimestampInFuture) ∧
    (lowerEq req.pay_to v.seller = true →
      lowerEq req.asset v.asset = true → cid = v.chain_id →
      now ≤ v.expiry → v.timestamp ≤ now →
      verify_voucher checksum recover v sig buyer = some false →
      aggregate_voucher checksum chain_id_of recover now buyer req =
        .error .invalidVoucherSignature) ∧
    (∀ e, aggregate_voucher checksum chain_id_of recover now buyer req =
        .error e →
      ∀ w, aggregate_voucher checksum chain_id_of recover now buyer req ≠
        .ok w) := by
  refine ⟨?_, ?_, ?_, ?_, ?_, ?_, ?_⟩
  · intro h1
    rw [aggregate_voucher, hextra]
    dsimp only
    rw [validate_agg_extraOf]
    dsimp only
    rw [if_pos (by simp [h1])]
  · intro h1 h2
    rw [aggregate_voucher, hextra]
    dsimp only
    rw [validate_agg_extraOf]
    dsimp only
    rw [if_neg (by simp [h1]), if_pos (by simp [h2])]
  · intro h1 h2 h3
    rw [aggregate_voucher, hextra]
    dsimp only
    rw [validate_agg_extraOf]
    dsimp only
    rw [if_neg (by simp [h1]), if_neg (by simp [h2]), hcid]
    dsimp only
    rw [if_pos h3]
  · intro h1 h2 h3 h4
    rw [aggregate_voucher, hextra]
    dsimp only
    rw [validate_agg_extraOf]
    dsimp only
    rw [if_neg (by simp [h1]), if_neg (by simp [h2]), hcid]
    dsimp only
    rw [if_neg (by simp [h3]), if_pos h4]
  · intro h1 h2 h3 h4 h5
    rw [aggregate_voucher, hextra]
    dsimp only
    rw [validate_agg_extraOf]
    dsimp only
    rw [if_neg (by simp [h1]), if_neg (by simp [h2]), hcid]
    dsimp only
    rw [if_neg (by simp [h3]), if_neg (by omega), if_pos h5]
  · intro h1 h2 h3 h4 h5 h6
    rw [aggregate_voucher, hextra]
    dsimp only
    rw [validate_agg_extraOf]
    dsimp only
    rw [if_neg (by simp [h1]), if_neg (by simp [h2]), hcid]
    dsimp only
    rw [if_neg (by simp [h3]), if_neg (by omega), if_neg (by omega), h6]
  · intro e he w
    rw [he]
    simp

/-- C2 witness: an expired prior voucher whose signature is valid still
fails, specifically with `VoucherExpired`. -/
theorem aggregate_validation_order_witness :
    verify_voucher idChecksum exRecover expVoucher "sigK" "0xABcd" =
        some true ∧
      aggregate_voucher idChecksum exChainId exRecover 200 "0xABcd"
        expReqAgg = .error .voucherExpired :=
  ⟨by decide,
    (aggregate_validation_order idChecksum exChainId exRecover 200 "0xABcd"
      expReqAgg expVoucher "sigK" 84532 rfl rfl).2.2.2.1 (by decide)
      (by decide) (by decide) (by decide)⟩

/-! ## The factory -/

/-- C6 counterexample: the source reads the clock once for `timestamp`
(line 77) and again for `expiry` (line 81); if the clock advances by one
second between the reads, `expiry - timestamp` is 30 days plus one
second, not 30 days. -/
theorem create_new_voucher_clock_drift_cex :
    (create_new_voucher idChecksum exChainId 100 101 "0xAbCd"
        exReqNew).map (fun v => v.expiry - v.timestamp) =
      Except.ok (EXPIRY_TIME + 1) ∧
    (create_new_voucher idChecksum exChainId 100 101 "0xAbCd"
        exReqNew).map (fun v => v.expiry - v.timestamp) ≠
      Except.ok EXPIRY_TIME := by
  constructor
  · decide
  · decide

/-- C6 amended: `create_new_voucher` returns the voucher with `nonce`
0, `value_aggregate` copied verbatim from `max_amount_required`,
checksummed `buyer`/`seller`/`asset`/`escrow`, `timestamp` from the
first clock read and `expiry` 30 days after the second clock read — so
`expiry - timestamp = 30 days` exactly when the two reads coincide. -/
theorem create_new_voucher_spec (checksum : String → String)
    (chain_id_of : String → Option Nat) (t1 t2 : Nat) (buyer : String)
    (req : PaymentRequirements) (extra : ExtraDict) (i e : String)
    (cid : Nat) (hextra : req.extra = some extra)
    (hseed : validate_new_extra extra = some (i, e))
    (hcid : chain_id_of req.network = some cid) :
    create_new_voucher checksum chain_id_of t1 t2 buyer req =
      .ok { id := i, buyer := checksum buyer,
            seller := checksum req.pay_to,
            value_aggregate := req.max_amount_required,
            asset := checksum req.asset, timestamp := t1, nonce := 0,
            escrow := checksum e, chain_id := cid,
            expiry := t2 + EXPIRY_TIME } ∧
    (t1 = t2 → (t2 + EXPIRY_TIME) - t1 = EXPIRY_TIME) := by
  constructor
  · rw [create_new_voucher, hextra]
    dsimp only
    rw [hseed]
    dsimp only
    rw [hcid]
  · omega

/-- C6 witness: concrete creation with coinciding clock reads. -/
theorem create_new_voucher_spec_witness :
    create_new_voucher idChecksum exChainId 300 300 "0xAbCd" exReqNew =
      .ok { id := "0xid9", buyer := "0xAbCd", seller := "0xSeLLer",
            value_aggregate := "1000", asset := "0xAsSeT",
            timestamp := 300, nonce := 0, escrow := "0xEsCrOw",
            chain_id := 84532, expiry := 300 + EXPIRY_TIME } ∧
    (300 + EXPIRY_TIME) - 300 = EXPIRY_TIME :=
  ⟨(create_new_voucher_spec idChecksum exChainId 300 300 "0xAbCd" exReqNew
      exNewExtra "0xid9" "0xEsCrOw" 84532 rfl rfl rfl).1,
    (create_new_voucher_spec idChecksum exChainId 300 300 "0xAbCd" exReqNew
      exNewExtra "0xid9" "0xEsCrOw" 84532 rfl rfl rfl).2 rfl⟩

/-! ## The typed-data encoder -/

/-- C5: the typed data of a voucher is exactly the
`DeferredPaymentEscrow`/version-1 domain over the voucher's chain and
normalized escrow, the `Voucher` type with its ten fields in order with
their exact type tags, and a message populating every field from the
voucher with each address re-normalized at encode time. -/
theorem get_voucher_typed_data_spec (checksum : String → String)
    (v : DeferredEvmPayloadVoucher) (va : Int)
    (hva : str_to_int v.value_aggregate = some va) :
    get_voucher_typed_data checksum v = some {
      eip712DomainType := [("name", "string"), ("version", "string"),
        ("chainId", "uint256"), ("verifyingContract", "address")]
      voucherType := [("id", "bytes32"), ("buyer", "address"),
        ("seller", "address"), ("valueAggregate", "uint256"),
        ("asset", "address"), ("timestamp", "uint64"),
        ("nonce", "uint256"), ("escrow", "address"),
        ("chainId", "uint256"), ("expiry", "uint64")]
      primaryType := "Voucher"
      domain_name := "DeferredPaymentEscrow"
      domain_version := "1"
      domain_chainId := v.chain_id
      domain_verifyingContract := checksum v.escrow
      msg_id := v.id
      msg_buyer := checksum v.buyer
      msg_seller := checksum v.seller
      msg_valueAggregate := va
      msg_asset := checksum v.asset
      msg_timestamp := v.timestamp
      msg_nonce := v.nonce
      msg_escrow := checksum v.escrow
      msg_chainId := v.chain_id
      msg_expiry := v.expiry } := by
  rw [get_voucher_typed_data, hva]

/-- C5 witness at a concrete voucher. -/
theorem get_voucher_typed_data_spec_witness :
    get_voucher_typed_data idChecksum exVoucher = some exTd :=
  get_voucher_typed_data_spec idChecksum exVoucher 7 (by decide)

/-! ## The verification adapter -/

/-- C3: `verify_voucher` is exactly the case-insensitive comparison of
the recovered signer with the claimed signer; it returns a boolean
(total — it cannot raise on a mismatch), true precisely when the claimed
address equals, case-insensitively, the address the signature recovers
to (the address derived from the signing key), and false for every
other address. -/
theorem verify_voucher_spec (checksum : String → String)
    (recover : TypedData → String → String)
    (v : DeferredEvmPayloadVoucher) (sig claimed : String)
    (td : TypedData) (addrK : String)
    (htd : get_voucher_typed_data checksum v = some td)
    (hrec : recover td sig = addrK) :
    verify_voucher checksum recover v sig claimed =
        some (lowerEq addrK claimed) ∧
      (verify_voucher checksum recover v sig claimed = some true ↔
        lowerStr addrK = lowerStr claimed) := by
  have h1 : verify_voucher checksum recover v sig claimed =
      some (lowerEq addrK claimed) := by
    rw [verify_voucher, htd, Option.map_some']
    rw [hrec]
  refine ⟨h1, ?_⟩
  rw [h1]
  simp [lowerEq]

/-- C3 witness: the signature `"sigK"` recovers to `"0xAbCd"`, so
verification succeeds for the case-variant `"0xABcd"` of that address
and the result is exactly the case-insensitive comparison. -/
theorem verify_voucher_spec_witness :
    verify_voucher idChecksum exRecover exVoucher "sigK" "0xABcd" =
        some (lowerEq "0xAbCd" "0xABcd") ∧
      (verify_voucher idChecksum exRecover exVoucher "sigK" "0xABcd" =
          some true ↔
        lowerStr "0xAbCd" = lowerStr "0xABcd") :=
  verify_voucher_spec idChecksum exRecover exVoucher "sigK" "0xABcd" exTd
    "0xAbCd" (by decide) (by decide)

/-! ## Header preparation errors -/

/-- C9: `prepare_payment_header` fails with `MalformedRequirements` when
`extra` is missing, lacks a `type`, or carries an unknown type; the
factory fails with `InvalidVoucherSeed` when the new-voucher seed lacks
`id` or `escrow`. -/
theorem prepare_payment_header_errors (checksum : String → String)
    (chain_id_of : String → Option Nat)
    (recover : TypedData → String → String) (t1 t2 : Nat)
    (sender : String) (ver : Nat) (req : PaymentRequirements) :
    (req.extra = none →
      prepare_payment_header checksum chain_id_of recover t1 t2 sender ver
        req = .error .malformedRequirements) ∧
    (∀ extra, req.extra = some extra → extra.type = none →
      prepare_payment_header checksum chain_id_of recover t1 t2 sender ver
        req = .error .malformedRequirements) ∧
    (∀ extra ty, req.extra = some extra → extra.type = some ty →
      ty ≠ "new" → ty ≠ "aggregation" →
      prepare_payment_header checksum chain_id_of recover t1 t2 sender ver
        req = .error .malformedRequirements) ∧
    (∀ extra, req.extra = some extra → extra.type = some "new" →
      validate_new_extra extra = none →
      prepare_payment_header checksum chain_id_of recover t1 t2 sender ver
        req = .error .invalidVoucherSeed) ∧
    (∀ extra, req.extra = some extra → validate_new_extra extra = none →
      create_new_voucher checksum chain_id_of t1 t2 sender req =
        .error .invalidVoucherSeed) ∧
    (∀ extra vd, extra.voucher = some vd →
      (vd.id = none ∨ vd.escrow = none) →
      validate_new_extra extra = none) := by
  refine ⟨?_, ?_, ?_, ?_, ?_, ?_⟩
  · intro h
    rw [prepare_payment_header, h]
  · intro extra hx hty
    rw [prepare_payment_header, hx]
    dsimp only
    rw [hty]
  · intro extra ty hx hty hnew hagg
    rw [prepare_payment_header, hx]
    dsimp only
    rw [hty]
    dsimp only
    rw [if_neg hnew, if_neg hagg]
    rfl
  · intro extra hx hty hval
    rw [prepare_payment_header, hx]
    dsimp only
    rw [hty]
    dsimp only
    rw [if_pos rfl, create_new_voucher, hx]
    dsimp only
    rw [hval]
    rfl
  · intro extra hx hval
    rw [create_new_voucher, hx]
    dsimp only
    rw [hval]
  · intro extra vd hvd hmiss
    rw [validate_new_extra, hvd]
    rcases h1 : vd.id with - | i <;> rcases h2 : vd.escrow with - | e <;>
      simp_all

/-- C9 witness: a `"new"` requirement whose seed lacks `escrow` fails
with `InvalidVoucherSeed`. -/
theorem prepare_payment_header_errors_witness :
    prepare_payment_header idChecksum exChainId exRecover 0 0 "0xAbCd" 1
      exReqNewNoEscrow = .error .invalidVoucherSeed :=
  (prepare_payment_header_errors idChecksum exChainId exRecover 0 0
      "0xAbCd" 1 exReqNewNoEscrow).2.2.2.1
    { type := some "new", voucher := some exSeedNoEscrow,
      signature := none } rfl rfl (by decide)

/-! ## Header signing -/

/-- C8 counterexample: `sign_payment_header` does not leave the given
header unchanged — it writes the computed signature into the header
(source line 231) before encoding, so the caller's header differs from
what was passed in. -/
theorem sign_payment_header_mutates_cex :
    exHeader.payload.signature = none ∧
    (sign_payment_header idChecksum exSign exHeader).map
        (fun p => p.1.payload.signature) = Except.ok (some "0xcafe") ∧
    (sign_payment_header idChecksum exSign exHeader).map Prod.fst ≠
      Except.ok exHeader := by
  refine ⟨rfl, ?_, ?_⟩ <;> decide

/-- C8 amended: every core operation is a pure function of its inputs,
the clock reads and the signing collaborator, and `aggregate_voucher`
never mutates the prior voucher; `sign_payment_header`, however,
updates the header it is given in place: the post-call header is the
input header with `payload.signature` set to the fresh signature (all
other fields unchanged), and the returned string encodes that updated
header. -/
theorem sign_payment_header_spec (checksum : String → String)
    (sign : TypedData → String) (header h2 : PaymentHeader)
    (sig enc : String)
    (hsig : sign_voucher checksum sign header.payload.voucher = some sig)
    (hok : sign_payment_header checksum sign header = .ok (h2, enc)) :
    h2 = { header with
           payload := { header.payload with signature := some sig } } ∧
    h2.x402Version = header.x402Version ∧ h2.scheme = header.scheme ∧
    h2.network = header.network ∧
    h2.payload.voucher = header.payload.voucher ∧
    h2.payload.signature = some sig ∧
    enc = encode_payment (headerToJson h2) := by
  rw [sign_payment_header, hsig] at hok
  dsimp only at hok
  simp only [Except.ok.injEq, Prod.mk.injEq] at hok
  obtain ⟨hh, he⟩ := hok
  subst hh
  subst he
  exact ⟨rfl, rfl, rfl, rfl, rfl, rfl, rfl⟩

/-- C8 witness: signing the concrete header produces exactly the
signature-updated header and its encoding. -/
theorem sign_payment_header_spec_witness :
    exHeaderSigned =
      { exHeader with
        payload :=
          { exHeader.payload with signature := some "0xcafe" } } ∧
    exHeaderSigned.x402Version = exHeader.x402Version ∧
    exHeaderSigned.scheme = exHeader.scheme ∧
    exHeaderSigned.network = exHeader.network ∧
    exHeaderSigned.payload.voucher = exHeader.payload.voucher ∧
    exHeaderSigned.payload.signature = some "0xcafe" ∧
    encode_payment (headerToJson exHeaderSigned) =
      encode_payment (headerToJson exHeaderSigned) :=
  sign_payment_header_spec idChecksum exSign exHeader exHeaderSigned
    "0xcafe" (encode_payment (headerToJson exHeaderSigned)) (by decide) rfl

/-! ## The payload codec -/

/-- C4: `decode_payment` inverts `encode_payment` on every well-formed
payment header (every string plain printable ASCII without `"` or `\`,
as the wire format's hex strings and network names are), including
headers whose payload signature is null; and `decode_payment` fails
exactly when the input is not valid URL-safe base64 or its decoded
bytes are not valid JSON. -/
theorem decode_encode_payment :
    (∀ h : PaymentHeader, cleanJson (headerToJson h) = true →
      decode_payment (encode_payment (headerToJson h)) =
        some (headerToJson h)) ∧
    (∀ s, decode_payment s = none ↔
      (safe_base64_decode s = none ∨
        ∃ t, safe_base64_decode s = some t ∧ json_loads t = none)) := by
  constructor
  · intro h hc
    exact decode_encode_clean (headerToJson h) hc
  · intro s
    unfold decode_payment
    cases hb : safe_base64_decode s with
    | none => exact iff_of_true rfl (Or.inl rfl)
    | some t =>
      constructor
      · intro hj
        exact Or.inr ⟨t, rfl, hj⟩
      · rintro (h | ⟨t', ht', hj⟩)
        · exact absurd h (by simp)
        · cases ht'
          exact hj

/-- C4 witness: round-trip of a concrete header with a null signature. -/
theorem decode_encode_payment_witness :
    cleanJson (headerToJson exHeader) = true ∧
    decode_payment (encode_payment (headerToJson exHeader)) =
      some (headerToJson exHeader) :=
  ⟨by decide, decode_encode_payment.1 exHeader (by decide)⟩

end X402
